import Mathlib

/-!
Shallow embedding of the enrichment-stage HTTP handlers of the
saas-admin-template repository (src/pages/api/apify_run.ts, reels_run.ts,
website_run.ts, open_run.ts, concise_run.ts).  Each handler is modelled as a
pure function from an environment describing the external collaborators
(the Apify job provider, the OpenAI endpoint, the Supabase lead store) and
the parsed request body to a result recording the HTTP status, the value of
the success field of the JSON body (when present), the sequence of
lead-store writes the handler performs, and any stage data it returns.

Conventions:
* JavaScript numbers that hold counts are modelled as Nat, monetary values
  and engagement rates as the rationals.
* A possibly-absent (undefined or null) JavaScript field is an Option.
* The JS idiom `x || d` is modelled field by field; where the falsy values
  of the field type can differ from absence (for example `0 || null`), a
  dedicated helper reproduces the falsiness behaviour.
* Each provider response that a handler consumes after a 2xx status is
  assumed to carry a well-formed JSON body (the handlers would throw on a
  malformed body of a 2xx response; no claim exercises that path).
-/

namespace SaasAdmin

/-- A JavaScript value as it appears in a parsed request body: a string, a
number, an absent/undefined field, or any other value (null, object, ...). -/
inductive JsVal
  | str (s : String)
  | num (n : Int)
  | absent
  | otherVal
deriving DecidableEq, Repr

/-- The check `!x || typeof x !== "string"` used by the handlers to validate
string body fields: it passes exactly for non-empty strings (the empty
string is falsy in JS). -/
def isValidStr : JsVal → Bool
  | JsVal.str s => s != ""
  | _ => false

/-- The check `!x || typeof x !== "number"` used by open_run to validate the
numeric leadId: it passes exactly for non-zero numbers (0 is falsy). -/
def isValidNum : JsVal → Bool
  | JsVal.num n => n != 0
  | _ => false

/-! ### The polling loops

Every handler polls the Apify actor-run status with the same loop shape
`while (status === "RUNNING" && maxAttempts-- > 0) { sleep; query }`.
They differ in how a failed status query is handled:
* reels_run and website_run catch the error and set `status = "FAILED"`,
  after which the loop condition fails (the graceful loop);
* apify_run rethrows, aborting the whole actor run (the strict loop).
-/

/-- The outcome of one status query against the job provider: a response
carrying a status string, or a network/HTTP failure (modelling both a
rejected fetch and a non-2xx status response, which the loops convert into
a thrown error). -/
inductive QueryResult
  | ok (status : String)
  | transientError
deriving DecidableEq, Repr

/-- What a finished polling loop reports: the final value of the status
variable, the number of status queries performed, and the number of sleeps
performed (in the source every query is preceded by one sleep). -/
structure PollOut where
  status : String
  queries : Nat
  sleeps : Nat
deriving DecidableEq, Repr

/-- The polling loop of reels_run.ts lines 96-114 and website_run.ts lines
104-129: fuel is the remaining maxAttempts budget; a query error sets the
status to "FAILED" and the loop condition then exits. The oracle gives the
outcome of the i-th status query. -/
def pollLoopGraceful (oracle : Nat → QueryResult) : Nat → String → Nat → Nat → PollOut
  | 0, st, q, sl => ⟨st, q, sl⟩
  | Nat.succ n, st, q, sl =>
    if st = "RUNNING" then
      match oracle q with
      | QueryResult.ok st2 => pollLoopGraceful oracle n st2 (q + 1) (sl + 1)
      | QueryResult.transientError => pollLoopGraceful oracle n "FAILED" (q + 1) (sl + 1)
    else ⟨st, q, sl⟩

/-- The polling loop of apify_run.ts lines 75-96 (inside runApifyActor): a
query error is rethrown as `Polling error: ...`, aborting the loop and the
surrounding actor run. -/
def pollLoopStrict (oracle : Nat → QueryResult) : Nat → String → Nat → Nat → Except String PollOut
  | 0, st, q, sl => Except.ok ⟨st, q, sl⟩
  | Nat.succ n, st, q, sl =>
    if st = "RUNNING" then
      match oracle q with
      | QueryResult.ok st2 => pollLoopStrict oracle n st2 (q + 1) (sl + 1)
      | QueryResult.transientError => Except.error "Polling error"
    else Except.ok ⟨st, q, sl⟩

/-- A status oracle that answers RUNNING to every query, without error. -/
def runningOracle : Nat → QueryResult := fun _ => QueryResult.ok "RUNNING"

/-- A status oracle that answers SUCCEEDED to every query. -/
def succeededOracle : Nat → QueryResult := fun _ => QueryResult.ok "SUCCEEDED"

/-- A status oracle whose first query fails transiently and every later
query answers RUNNING. -/
def errFirstOracle : Nat → QueryResult :=
  fun q => if q = 0 then QueryResult.transientError else QueryResult.ok "RUNNING"

lemma pollLoopGraceful_exit (oracle : Nat → QueryResult) (n : Nat) (st : String)
    (q sl : Nat) (h : st ≠ "RUNNING") :
    pollLoopGraceful oracle n st q sl = ⟨st, q, sl⟩ := by
  cases n with
  | zero => rfl
  | succ m => simp [pollLoopGraceful, h]

lemma pollLoopGraceful_running (n : Nat) : ∀ q sl : Nat,
    pollLoopGraceful runningOracle n "RUNNING" q sl = ⟨"RUNNING", q + n, sl + n⟩ := by
  induction n with
  | zero => intro q sl; rfl
  | succ m ih =>
    intro q sl
    rw [pollLoopGraceful]
    simp only [if_pos rfl, runningOracle, ih, if_true, PollOut.mk.injEq]
    exact ⟨trivial, by omega, by omega⟩

lemma pollLoopStrict_running (n : Nat) : ∀ q sl : Nat,
    pollLoopStrict runningOracle n "RUNNING" q sl = Except.ok ⟨"RUNNING", q + n, sl + n⟩ := by
  induction n with
  | zero => intro q sl; rfl
  | succ m ih =>
    intro q sl
    rw [pollLoopStrict]
    simp only [if_pos rfl, runningOracle, ih, if_true, Except.ok.injEq, PollOut.mk.injEq]
    exact ⟨trivial, by omega, by omega⟩

/-! ### The reels stage extraction (reels_run.ts lines 149-169) -/

/-- A raw reel record as read from the Apify dataset by reels_run.ts; every
field the mapping reads, each possibly absent. -/
structure RawReel where
  id : Option String
  url : Option String
  likesCount : Option Nat
  commentsCount : Option Nat
  videoPlayCount : Option Nat
  timestamp : Option String
deriving DecidableEq, Repr

/-- `Number(x.toFixed(2))` for a non-negative rational: round to 2 decimal
places, halves away from zero. -/
def round2 (x : ℚ) : ℚ := (⌊x * 100 + 1 / 2⌋ : ℚ) / 100

/-- A normalized reel item as built by reels_run.ts lines 156-164. The
source line 163 reads `timestamp, reel.timestamp,`, an evident typo for
`timestamp: reel.timestamp`; it is modelled by its intent. -/
structure Reel where
  id : Option String
  url : Option String
  ctr : ℚ
  likesCount : Nat
  commentsCount : Nat
  videoPlayCount : Nat
  timestamp : Option String
deriving DecidableEq, Repr

/-- The per-item mapping of reels_run.ts lines 150-165: counts default to 0
via `|| 0`; the per-item engagement proxy ctr is
`(likes + comments) / views * 100` when views > 0 and 0 otherwise, rounded
to 2 decimals; id, url and timestamp are copied without fallback. -/
def extractReel (r : RawReel) : Reel :=
  let views := r.videoPlayCount.getD 0
  let likes := r.likesCount.getD 0
  let comments := r.commentsCount.getD 0
  let ctr : ℚ := if 0 < views then (((likes : ℚ) + comments) / views) * 100 else 0
  ⟨r.id, r.url, round2 ctr, likes, comments, views, r.timestamp⟩

/-- reels_run.ts line 167: the sum of likes + comments over the capped item
set. -/
def totalEngagement (rs : List Reel) : Nat :=
  rs.foldl (fun s r => s + r.likesCount + r.commentsCount) 0

/-- reels_run.ts line 168: the sum of views over the capped item set. -/
def totalViews (rs : List Reel) : Nat :=
  rs.foldl (fun s r => s + r.videoPlayCount) 0

/-- reels_run.ts line 169: the stage-level aggregate engagement rate,
`totalEngagement / totalViews * 100` rounded to 2 decimals, null when the
summed views are 0. -/
def computeErAvg (rs : List Reel) : Option ℚ :=
  if 0 < totalViews rs then
    some (round2 ((totalEngagement rs : ℚ) / totalViews rs * 100))
  else none

/-- The reels-stage field group of the persisted lead record. -/
structure ReelsFields where
  has_reels : Bool
  reels : List Reel
  er_avg : Option ℚ
deriving DecidableEq, Repr

/-! ### The website stage extraction (website_run.ts lines 180-200) -/

/-- A raw crawled page as read by website_run.ts; fields prefixed hash model
the `page[...]` bracket reads of the prefixed variants. -/
structure RawPage where
  url : Option String
  hashUrl : Option String
  crawlLoadedUrl : Option String
  crawlDepth : Option Nat
  title : Option String
  description : Option String
  author : Option String
  keywords : Option String
  languageCode : Option String
  text : Option String
  hashText : Option String
  markdown : Option String
  hashMarkdown : Option String
  screenshotUrl : Option String
deriving DecidableEq, Repr

/-- JS `a || b` on two possibly-absent strings: the empty string is falsy
and falls through to the second operand. -/
def jsOrStr (a b : Option String) : Option String :=
  match a with
  | some s => if s = "" then b else some s
  | none => b

/-- JS `a || d` on a possibly-absent string with a string default. -/
def jsOrStrD (a : Option String) (d : String) : String :=
  match a with
  | some s => if s = "" then d else s
  | none => d

/-- JS `x || null` on a possibly-absent count: 0 is falsy and becomes
null. -/
def jsOrNullNat : Option Nat → Option Nat
  | some n => if n = 0 then none else some n
  | none => none

/-- JS `x || null` on a possibly-absent string: the empty string becomes
null. -/
def jsOrNullStr : Option String → Option String
  | some s => if s = "" then none else some s
  | none => none

/-- A normalized page as built by website_run.ts lines 180-192: most fields
carry an explicit fallback, but loadedUrl falls back only to `page.url` and
stays absent when both are absent. -/
structure ExtractedPage where
  url : String
  loadedUrl : Option String
  depth : Nat
  title : String
  description : String
  author : Option String
  keywords : Option String
  language : String
  text : String
  markdown : String
  screenshotUrl : Option String
deriving DecidableEq, Repr

/-- The per-page mapping of website_run.ts lines 180-192. -/
def extractPage (p : RawPage) : ExtractedPage :=
  { url := jsOrStrD (jsOrStr p.url p.hashUrl) ""
    loadedUrl := jsOrStr p.crawlLoadedUrl p.url
    depth := p.crawlDepth.getD 0
    title := jsOrStrD p.title ""
    description := jsOrStrD p.description ""
    author := jsOrNullStr p.author
    keywords := jsOrNullStr p.keywords
    language := jsOrStrD p.languageCode "en"
    text := jsOrStrD (jsOrStr p.text p.hashText) ""
    markdown := jsOrStrD (jsOrStr p.markdown p.hashMarkdown) ""
    screenshotUrl := jsOrNullStr p.screenshotUrl }

/-- The website_data object persisted by website_run.ts lines 194-200: the
primary page is the first page of depth 0, or the first page when none has
depth 0. -/
structure WebsiteData where
  inputUrl : String
  pagesCount : Nat
  primary : ExtractedPage
  allPages : List ExtractedPage
deriving DecidableEq, Repr

/-- website_run.ts lines 194-200, on a non-empty extracted page list given
as head and tail. -/
def buildWebsiteData (inputUrl : String) (p0 : ExtractedPage)
    (rest : List ExtractedPage) : WebsiteData :=
  let pages := p0 :: rest
  let primary := (pages.find? (fun pg => pg.depth == 0)).getD p0
  ⟨inputUrl, pages.length, primary, pages⟩

/-! ### The profile stage extraction (apify_run.ts lines 176-223) -/

/-- A raw Instagram profile record as read by the extraction block of
apify_run.ts lines 177-191. The field named private in the source is
modelled as isPrivate (private is a Lean keyword). The latestPosts array
feeds the separate posts-metrics block (lines 193-211), which no claim
references; it is not modelled. -/
structure RawProfile where
  username : Option String
  followersCount : Option Nat
  followsCount : Option Nat
  biography : Option String
  externalUrl : Option String
  profilePicUrl : Option String
  profilePicUrlHD : Option String
  isPrivate : Option Bool
  verified : Option Bool
  postsCount : Option Nat
  isBusinessAccount : Option Bool
  businessCategoryName : Option String
  relatedProfiles : Option (List String)
deriving DecidableEq, Repr

/-- JS `x || false` on a possibly-absent boolean. -/
def jsOrFalse : Option Bool → Bool
  | some b => b
  | none => false

/-- The extracted profile of apify_run.ts lines 177-191: username,
followersCount, profilePicUrl and profilePicUrlHD are copied with no
fallback and stay absent when the raw field is absent; the remaining fields
have explicit defaults. -/
structure ExtractedProfile where
  username : Option String
  followersCount : Option Nat
  followsCount : Option Nat
  biography : String
  externalUrl : Option String
  profilePicUrl : Option String
  profilePicUrlHD : Option String
  isPrivate : Bool
  verified : Bool
  postsCount : Nat
  isBusinessAccount : Bool
  businessCategoryName : Option String
  relatedProfiles : List String
deriving DecidableEq, Repr

/-- The profile mapping of apify_run.ts lines 177-191. -/
def extractProfile (r : RawProfile) : ExtractedProfile :=
  { username := r.username
    followersCount := r.followersCount
    followsCount := jsOrNullNat r.followsCount
    biography := r.biography.getD ""
    externalUrl := jsOrNullStr r.externalUrl
    profilePicUrl := r.profilePicUrl
    profilePicUrlHD := r.profilePicUrlHD
    isPrivate := jsOrFalse r.isPrivate
    verified := jsOrFalse r.verified
    postsCount := r.postsCount.getD 0
    isBusinessAccount := jsOrFalse r.isBusinessAccount
    businessCategoryName := jsOrNullStr r.businessCategoryName
    relatedProfiles := r.relatedProfiles.getD [] }

/-- A raw reel of the second actor run of apify_run.ts, as read by lines
214-223. -/
structure RawApifyReel where
  id : Option String
  shortCode : Option String
  caption : Option String
  likesCount : Option Nat
  commentsCount : Option Nat
  videoViewCount : Option Nat
  videoDuration : Option ℚ
  timestamp : Option String
deriving DecidableEq, Repr

/-- JS `x || null` on a possibly-absent non-negative rational. -/
def jsOrNullRat : Option ℚ → Option ℚ
  | some x => if x = 0 then none else some x
  | none => none

/-- The extracted reel of apify_run.ts lines 214-223: id, shortCode and
timestamp have no fallback. -/
structure ExtractedApifyReel where
  id : Option String
  shortCode : Option String
  caption : String
  likesCount : Nat
  commentsCount : Nat
  videoViewCount : Option Nat
  videoDuration : Option ℚ
  timestamp : Option String
deriving DecidableEq, Repr

/-- The reel mapping of apify_run.ts lines 214-223. -/
def extractApifyReel (r : RawApifyReel) : ExtractedApifyReel :=
  { id := r.id
    shortCode := r.shortCode
    caption := r.caption.getD ""
    likesCount := r.likesCount.getD 0
    commentsCount := r.commentsCount.getD 0
    videoViewCount := jsOrNullNat r.videoViewCount
    videoDuration := jsOrNullRat r.videoDuration
    timestamp := r.timestamp }

/-! ### The AI analysis objects (open_run.ts and the oai variant of
concise_run.ts lines 157-308) -/

/-- An OpenAI analysis that passed the validation of open_run.ts lines
113-115: truthy summary, an array of prices, a string niche; pricesLow and
otherContact are stored as returned (possibly absent). -/
structure OpenAnalysis where
  summary : String
  prices : List ℚ
  pricesLow : Option (List ℚ)
  niche : String
  otherContact : Option String
deriving DecidableEq, Repr

/-- The analysis field group owned by open_run.ts on the lead record:
columns summary, prices, pricesLow, niche, otherContact and the
ai_analysis_complete flag. -/
structure AiFields where
  summary : Option String
  prices : List ℚ
  pricesLow : Option (List ℚ)
  niche : Option String
  otherContact : Option String
  ai_analysis_complete : Bool
deriving DecidableEq, Repr

/-- A JS value that is either a string or a list of strings, as stored in
the pricesLow member of the openai column by the oai variant. -/
inductive JsStrOrList
  | jstr (s : String)
  | jlist (l : List String)
deriving DecidableEq, Repr

/-- An OpenAI analysis that passed the validation of the oai variant
(concise_run.ts lines 272-279), after the coercion of an empty-string
pricesLow to the empty list on line 279. -/
structure OaiAnalysis where
  summary : String
  prices : List String
  pricesLow : List String
  niche : String
  otherContact : String
deriving DecidableEq, Repr

/-- The shape of the openai column written by the oai variant: the
successful analysis or one of the two neutral fallback objects. -/
structure OaiStored where
  summary : Option String
  prices : List String
  pricesLow : JsStrOrList
  niche : Option String
  otherContact : String
deriving DecidableEq, Repr

/-- The stored form of a successful oai analysis. -/
def fromOaiAnalysis (a : OaiAnalysis) : OaiStored :=
  ⟨some a.summary, a.prices, JsStrOrList.jlist a.pricesLow, some a.niche, a.otherContact⟩

/-- The fallback object of concise_run.ts line 231 (missing profile data):
note pricesLow is the empty string there. -/
def oaiFallbackNoProfile : OaiStored :=
  ⟨none, [], JsStrOrList.jstr "", none, ""⟩

/-- The fallback object of concise_run.ts line 282 (OpenAI failure): here
pricesLow is the empty list. -/
def oaiFallbackLlm : OaiStored :=
  ⟨none, [], JsStrOrList.jlist [], none, ""⟩

/-! ### Lead-store writes -/

/-- One update call against the leads table, by field-group shape:
* reelsDegraded — `{ has_reels: false, reels: [], er_avg: null }`
* reelsOk — `{ reels, er_avg, has_reels: true }`
* websiteDegraded — `{ has_website: false, website_data: null }`
* websiteOk — `{ website_data, has_website: true }`
* aiFlagOnly — open_run degraded: `{ ai_analysis_complete: false }` alone
* aiFieldsOk — open_run success: the five analysis columns plus flag true
* aiObj — oai variant: `{ openai, ai_analysis_complete }`. -/
inductive LeadWrite
  | reelsDegraded
  | reelsOk (rs : List Reel) (er : Option ℚ)
  | websiteDegraded
  | websiteOk (d : WebsiteData)
  | aiFlagOnly
  | aiFieldsOk (a : OpenAnalysis)
  | aiObj (o : OaiStored) (complete : Bool)
deriving DecidableEq, Repr

/-- Effect of a write on the reels field group; writes to other groups are
the identity there. -/
def applyReelsWrite : LeadWrite → ReelsFields → ReelsFields
  | LeadWrite.reelsDegraded, _ => ⟨false, [], none⟩
  | LeadWrite.reelsOk rs er, _ => ⟨true, rs, er⟩
  | _, f => f

/-- Effect of a write on the open_run analysis field group: aiFlagOnly
lowers the flag and touches nothing else. -/
def applyAiWrite : LeadWrite → AiFields → AiFields
  | LeadWrite.aiFlagOnly, f =>
    { f with ai_analysis_complete := false }
  | LeadWrite.aiFieldsOk a, _ =>
    ⟨some a.summary, a.prices, a.pricesLow, some a.niche, a.otherContact, true⟩
  | _, f => f

/-! ### The reels handler (reels_run.ts lines 25-194) -/

/-- The outcome of submitting an actor run: the submission fetch threw, the
provider answered non-2xx, or the run was accepted. -/
inductive SubmitOutcome
  | netError
  | rejected
  | accepted
deriving DecidableEq, Repr

/-- The collaborators of one reels_run invocation. fetch is the dataset
read once the run succeeded: none models a thrown or non-2xx results fetch
(and a null body), some the item list. updateOk tells whether the final
supabase update reports an error. -/
structure ReelsEnv where
  tokenOk : Bool
  bodyOk : Bool
  submit : SubmitOutcome
  pollOracle : Nat → QueryResult
  fetch : Option (List RawReel)
  updateOk : Bool

/-- What a reels_run invocation produces: HTTP status, the success field of
the JSON body when present, and the lead-store writes in order. -/
structure ReelsResult where
  status : Nat
  success : Option Bool
  writes : List LeadWrite
deriving DecidableEq, Repr

/-- reels_run.ts POST. Control flow, in source order: token check, JSON
body parse, username and leadId validation (400, no write); submission
fetch error or rejection (degraded write, 200 success false); the graceful
poll with maxAttempts 40; any final status other than SUCCEEDED (degraded
write, 200 success false); results fetch failure (degraded write, 200
success false); empty results (degraded write, 200 success false);
otherwise extraction of the first 2 items, the aggregate rate, and the
success write — a failed update returns 500, body without success field. -/
def reelsPOST (env : ReelsEnv) (username leadId : JsVal) : ReelsResult :=
  if env.tokenOk = false then ⟨401, none, []⟩
  else if env.bodyOk = false then ⟨400, none, []⟩
  else if (isValidStr username && isValidStr leadId) = false then ⟨400, none, []⟩
  else
    match env.submit with
    | SubmitOutcome.netError => ⟨200, some false, [LeadWrite.reelsDegraded]⟩
    | SubmitOutcome.rejected => ⟨200, some false, [LeadWrite.reelsDegraded]⟩
    | SubmitOutcome.accepted =>
      let p := pollLoopGraceful env.pollOracle 40 "RUNNING" 0 0
      if p.status ≠ "SUCCEEDED" then ⟨200, some false, [LeadWrite.reelsDegraded]⟩
      else
        match env.fetch with
        | none => ⟨200, some false, [LeadWrite.reelsDegraded]⟩
        | some results =>
          if results.length = 0 then ⟨200, some false, [LeadWrite.reelsDegraded]⟩
          else
            let reels := (results.take 2).map extractReel
            let er := computeErAvg reels
            if env.updateOk then ⟨200, some true, [LeadWrite.reelsOk reels er]⟩
            else ⟨500, none, [LeadWrite.reelsOk reels er]⟩

/-! ### The profile handler (apify_run.ts lines 52-258) -/

/-- The collaborators of one actor run as used by runApifyActor: whether
the submission got a 2xx, the status oracle for the strict poll, whether
the results fetch got a 2xx, and the dataset items it returns. -/
structure ActorEnv (α : Type) where
  submitOk : Bool
  pollOracle : Nat → QueryResult
  fetchOk : Bool
  items : List α

/-- apify_run.ts lines 53-115, runApifyActor: throws on a rejected
submission, on any status-poll error (the strict loop), on a final status
other than SUCCEEDED, and on a failed results fetch; otherwise returns the
dataset items. -/
def runApifyActor {α : Type} (env : ActorEnv α) : Except String (List α) :=
  if env.submitOk = false then Except.error "Apify run failed"
  else
    match pollLoopStrict env.pollOracle 40 "RUNNING" 0 0 with
    | Except.error e => Except.error e
    | Except.ok p =>
      if p.status ≠ "SUCCEEDED" then Except.error ("Run failed with status: " ++ p.status)
      else if env.fetchOk = false then Except.error "Failed to fetch results"
      else Except.ok env.items

/-- The collaborators of one apify_run invocation: the profile-and-posts
actor run, the recent-reels actor run, and the profile-picture upload. -/
structure ApifyEnv where
  tokenOk : Bool
  bodyOk : Bool
  postsRun : ActorEnv RawProfile
  reelsRun : ActorEnv RawApifyReel
  uploadOk : Bool

/-- What an apify_run invocation produces. The handler never updates the
leads table (its only storage side effect is the profile-picture upload),
so writes is the empty list on every path; the field is kept to state
that. -/
structure ApifyResult where
  status : Nat
  success : Option Bool
  writes : List LeadWrite
  profileData : Option ExtractedProfile
  recentReels : List ExtractedApifyReel
  uploadSuccess : Option Bool
deriving DecidableEq, Repr

/-- apify_run.ts POST (lines 118-258). All of the body after validation is
wrapped in one try whose catch returns 500 (lines 254-257): a failed
profile-and-posts run, and an empty profile-and-posts result (line 157
throws), both become 500 responses. The inner reels run failure is caught
and tolerated (lines 163-174), as is an upload failure (lines 235-246). -/
def apifyPOST (env : ApifyEnv) (username : JsVal) : ApifyResult :=
  if env.tokenOk = false then ⟨401, none, [], none, [], none⟩
  else if env.bodyOk = false then ⟨400, none, [], none, [], none⟩
  else if isValidStr username = false then ⟨400, none, [], none, [], none⟩
  else
    match runApifyActor env.postsRun with
    | Except.error _ => ⟨500, none, [], none, [], none⟩
    | Except.ok postsResults =>
      match postsResults with
      | [] => ⟨500, none, [], none, [], none⟩
      | profile :: _ =>
        let recentReels :=
          match runApifyActor env.reelsRun with
          | Except.error _ => ([] : List RawApifyReel)
          | Except.ok l => l
        ⟨200, some true, [], some (extractProfile profile),
          recentReels.map extractApifyReel, some env.uploadOk⟩

/-! ### The website handler (website_run.ts lines 20-226) -/

/-- Occurrence of a pattern as a contiguous run inside a character list. -/
def listInfix (pat : List Char) : List Char → Bool
  | [] => pat.isEmpty
  | c :: rest => pat.isPrefixOf (c :: rest) || listInfix pat rest

/-- JS `s.includes(pat)`: pat occurs as a substring of s. -/
def jsIncludes (s pat : String) : Bool := listInfix pat.data s.data

/-- JS `s.endsWith(suffix)`. -/
def jsEndsWith (s suffix : String) : Bool := suffix.data.isSuffixOf s.data

/-- Lookup of a method name on a JS string receiver, restricted to the two
String.prototype members the normalization could use. Any other name (in
particular the misspelt endswith of website_run.ts line 50) is not a member:
the property access yields undefined and the call throws a TypeError,
modelled as none. -/
def jsStringMethod (m : String) : Option (String → String → Bool) :=
  if m = "endsWith" then some (fun s arg => jsEndsWith s arg)
  else if m = "includes" then some (fun s pat => jsIncludes s pat)
  else none

/-- The start-URL normalization of website_run.ts lines 50-53, with the
method names exactly as written in the source: line 50 calls
`externalUrl.endswith` (lowercase w), so the first lookup fails and the
whole normalization throws. -/
def computeStartUrl (externalUrl : String) : Option String :=
  match jsStringMethod "endswith" with
  | none => none
  | some ends =>
    let startUrl := if ends externalUrl "/" then externalUrl else externalUrl ++ "/"
    match jsStringMethod "includes" with
    | none => none
    | some incl =>
      some (if incl startUrl "collections" then startUrl else startUrl ++ "collections/")

/-- Modelled from the claim counterfactual: the same normalization with the
standard endsWith method, for examining what the code would submit if the
line-50 typo were fixed. -/
def computeStartUrlFixed (externalUrl : String) : String :=
  let startUrl := if jsEndsWith externalUrl "/" then externalUrl else externalUrl ++ "/"
  if jsIncludes startUrl "collections" then startUrl else startUrl ++ "collections/"

/-- How a handler invocation ends at the HTTP boundary: with a returned
response, or with an exception escaping the handler. -/
inductive HandlerOutcome
  | thrown
  | resp (status : Nat) (success : Option Bool)
deriving DecidableEq, Repr

/-- The collaborators of one website_run invocation, mirroring ReelsEnv. -/
structure WebsiteEnv where
  tokenOk : Bool
  bodyOk : Bool
  submit : SubmitOutcome
  pollOracle : Nat → QueryResult
  fetch : Option (List RawPage)
  updateOk : Bool

/-- What a website_run invocation produces; submitted records whether the
crawl-run submission request was issued. -/
structure WebsiteResult where
  outcome : HandlerOutcome
  writes : List LeadWrite
  submitted : Bool
deriving DecidableEq, Repr

/-- website_run.ts POST (lines 20-226). Invalid externalUrl or leadId
performs a degraded write and returns 200 success false (lines 42-46); for
a valid body the normalization of line 50 runs next and throws before the
crawl is submitted. The remaining pipeline (submission, graceful poll,
fetch, extraction, update) mirrors reels_run with the website field
group. -/
def websitePOST (env : WebsiteEnv) (externalUrl leadId : JsVal) : WebsiteResult :=
  if env.tokenOk = false then ⟨HandlerOutcome.resp 401 none, [], false⟩
  else if env.bodyOk = false then ⟨HandlerOutcome.resp 400 none, [], false⟩
  else if (isValidStr externalUrl && isValidStr leadId) = false then
    ⟨HandlerOutcome.resp 200 (some false), [LeadWrite.websiteDegraded], false⟩
  else
    match externalUrl with
    | JsVal.str s =>
      match computeStartUrl s with
      | none => ⟨HandlerOutcome.thrown, [], false⟩
      | some _startUrl =>
        match env.submit with
        | SubmitOutcome.netError =>
          ⟨HandlerOutcome.resp 200 (some false), [LeadWrite.websiteDegraded], true⟩
        | SubmitOutcome.rejected =>
          ⟨HandlerOutcome.resp 200 (some false), [LeadWrite.websiteDegraded], true⟩
        | SubmitOutcome.accepted =>
          let p := pollLoopGraceful env.pollOracle 40 "RUNNING" 0 0
          if p.status ≠ "SUCCEEDED" then
            ⟨HandlerOutcome.resp 200 (some false), [LeadWrite.websiteDegraded], true⟩
          else
            match env.fetch with
            | none => ⟨HandlerOutcome.resp 200 (some false), [LeadWrite.websiteDegraded], true⟩
            | some [] => ⟨HandlerOutcome.resp 200 (some false), [LeadWrite.websiteDegraded], true⟩
            | some (pg :: rest) =>
              let d := buildWebsiteData s (extractPage pg) (rest.map extractPage)
              if env.updateOk then
                ⟨HandlerOutcome.resp 200 (some true), [LeadWrite.websiteOk d], true⟩
              else ⟨HandlerOutcome.resp 500 none, [LeadWrite.websiteOk d], true⟩
    | _ => ⟨HandlerOutcome.thrown, [], false⟩

/-! ### The summarization handlers -/

/-- The lead row as read and written by open_run.ts: the truthiness of the
three upstream field groups (note a present-but-empty reels array is truthy
in JS), and the analysis columns the handler owns (selected by other
readers; open_run itself reads only the first four columns and never the
analysis group). -/
structure OpenRow where
  raw_data_present : Bool
  reels_present : Bool
  website_present : Bool
  stored : AiFields

/-- The collaborators of one open_run invocation: the lead fetch (none
models a fetch error or missing row), the OpenAI call (none models every
failure path: thrown call, empty response, JSON parse failure, schema
mismatch), and the final update. -/
structure OpenEnv where
  tokenOk : Bool
  bodyOk : Bool
  leadRow : Option OpenRow
  llm : Option OpenAnalysis
  updateOk : Bool

/-- What an open_run invocation produces; llmCalls counts OpenAI
chat-completion requests issued. -/
structure OpenResult where
  status : Nat
  success : Option Bool
  llmCalls : Nat
  writes : List LeadWrite
deriving DecidableEq, Repr

/-- open_run.ts POST (lines 25-151). leadId must be a number (line 47).
A missing lead returns 404 with no write. Incomplete upstream data writes
`{ ai_analysis_complete: false }` alone and returns 200 success false
(lines 67-71). Any OpenAI failure is caught at lines 146-150, which write
`{ ai_analysis_complete: false }` alone and return 500. Success writes the
five analysis columns with the flag true (lines 121-131). There is no
idempotency check: the handler selects only raw_data, reels, website_data
and ER_avg (line 58) and always issues the OpenAI call when the data is
complete. -/
def openPOST (env : OpenEnv) (leadId : JsVal) : OpenResult :=
  if env.tokenOk = false then ⟨401, none, 0, []⟩
  else if env.bodyOk = false then ⟨400, none, 0, []⟩
  else if isValidNum leadId = false then ⟨400, none, 0, []⟩
  else
    match env.leadRow with
    | none => ⟨404, none, 0, []⟩
    | some row =>
      if (row.raw_data_present && row.reels_present && row.website_present) = false then
        ⟨200, some false, 0, [LeadWrite.aiFlagOnly]⟩
      else
        match env.llm with
        | none => ⟨500, none, 1, [LeadWrite.aiFlagOnly]⟩
        | some a =>
          if env.updateOk then ⟨200, some true, 1, [LeadWrite.aiFieldsOk a]⟩
          else ⟨500, none, 1, [LeadWrite.aiFieldsOk a]⟩

/-- The lead row as read by the oai variant of concise_run.ts (lines
212-216): the truthiness of raw_data and the openai column included for the
idempotency check. A null openai column and an empty openai object both
fail the non-emptiness check of line 223 and are modelled as none. -/
structure OaiRow where
  raw_data_present : Bool
  openaiStored : Option OaiStored

/-- The collaborators of one invocation of the oai variant. -/
structure OaiEnv where
  tokenOk : Bool
  bodyOk : Bool
  leadRow : Option OaiRow
  llm : Option OaiAnalysis
  updateOk : Bool

/-- What an invocation of the oai variant produces; data is the data member
of the JSON body when present. -/
structure OaiResult where
  status : Nat
  success : Option Bool
  llmCalls : Nat
  writes : List LeadWrite
  data : Option OaiStored
deriving DecidableEq, Repr

/-- The oai variant of concise_run.ts, POST (lines 181-308). leadId must be
a string (line 203). When the stored openai object is non-empty the cached
object is returned as-is with no OpenAI call and no write (lines 223-225).
A missing profile writes the line-231 fallback and returns 200 success
false. An OpenAI failure writes the line-282 fallback and returns 200
success false with the fallback as data (lines 280-285). Success writes
`{ openai, ai_analysis_complete: true }`; a failed update returns 500. -/
def oaiPOST (env : OaiEnv) (leadId : JsVal) : OaiResult :=
  if env.tokenOk = false then ⟨401, none, 0, [], none⟩
  else if env.bodyOk = false then ⟨400, none, 0, [], none⟩
  else if isValidStr leadId = false then ⟨400, none, 0, [], none⟩
  else
    match env.leadRow with
    | none => ⟨404, none, 0, [], none⟩
    | some row =>
      match row.openaiStored with
      | some existing => ⟨200, some true, 0, [], some existing⟩
      | none =>
        if row.raw_data_present = false then
          ⟨200, some false, 0, [LeadWrite.aiObj oaiFallbackNoProfile false], none⟩
        else
          match env.llm with
          | none =>
            ⟨200, some false, 1, [LeadWrite.aiObj oaiFallbackLlm false], some oaiFallbackLlm⟩
          | some a =>
            if env.updateOk then
              ⟨200, some true, 1, [LeadWrite.aiObj (fromOaiAnalysis a) true],
                some (fromOaiAnalysis a)⟩
            else ⟨500, none, 1, [LeadWrite.aiObj (fromOaiAnalysis a) true], none⟩

/-! ### Concrete data used by witnesses and counterexamples -/

/-- The first reel of the engagement-rate example: 10 likes, 5 comments,
100 views. -/
def rawReelA : RawReel := ⟨some "a", some "ua", some 10, some 5, some 100, some "ta"⟩

/-- The second reel of the engagement-rate example: 20 likes, 0 comments,
0 views. -/
def rawReelB : RawReel := ⟨some "b", some "ub", some 20, some 0, some 0, some "tb"⟩

/-- An arbitrary prior state of the reels field group. -/
def priorReels : ReelsFields := ⟨true, [], some 5⟩

/-- A reels invocation whose submission is rejected by the provider. -/
def envReelsRejected : ReelsEnv :=
  ⟨true, true, SubmitOutcome.rejected, runningOracle, some [], true⟩

/-- A fully successful reels invocation over the two example reels. -/
def envReelsHappy : ReelsEnv :=
  ⟨true, true, SubmitOutcome.accepted, succeededOracle, some [rawReelA, rawReelB], true⟩

/-- A reels invocation whose job succeeds but whose dataset is empty. -/
def envReelsEmpty : ReelsEnv :=
  ⟨true, true, SubmitOutcome.accepted, succeededOracle, some [], true⟩

/-- A raw profile with every extracted field present. -/
def rawProfileAcme : RawProfile :=
  ⟨some "acme", some 1000, some 10, some "a bio", none, some "pic", some "hd",
    some false, some true, some 3, some false, none, some []⟩

/-- A raw profile with every field absent. -/
def rawProfileBare : RawProfile :=
  ⟨none, none, none, none, none, none, none, none, none, none, none, none, none⟩

/-- A raw page with every field absent. -/
def rawPageBare : RawPage :=
  ⟨none, none, none, none, none, none, none, none, none, none, none, none, none, none⟩

/-- A successful profile-and-posts actor run returning one profile. -/
def actorOkProfile : ActorEnv RawProfile := ⟨true, succeededOracle, true, [rawProfileAcme]⟩

/-- A successful profile-and-posts actor run returning no records. -/
def actorEmptyProfile : ActorEnv RawProfile := ⟨true, succeededOracle, true, []⟩

/-- A profile-and-posts actor run whose submission is rejected. -/
def actorRejectedProfile : ActorEnv RawProfile := ⟨false, runningOracle, true, []⟩

/-- A successful recent-reels actor run returning no records. -/
def actorOkReels : ActorEnv RawApifyReel := ⟨true, succeededOracle, true, []⟩

/-- An apify_run invocation whose profile-and-posts submission is
rejected. -/
def envApifyRejected : ApifyEnv := ⟨true, true, actorRejectedProfile, actorOkReels, true⟩

/-- A fully successful apify_run invocation. -/
def envApifyOk : ApifyEnv := ⟨true, true, actorOkProfile, actorOkReels, true⟩

/-- An apify_run invocation whose profile-and-posts run succeeds with an
empty dataset. -/
def envApifyEmpty : ApifyEnv := ⟨true, true, actorEmptyProfile, actorOkReels, true⟩

/-- A lead whose analysis field group already holds data. -/
def priorAnalyzed : AiFields :=
  ⟨some "cached summary", [29], some [19], some "fashion", some "mail", true⟩

/-- An open_run lead row with all three upstream groups present and a
non-empty analysis group already stored. -/
def openRowFull : OpenRow := ⟨true, true, true, priorAnalyzed⟩

/-- An open_run invocation on openRowFull whose OpenAI call fails. -/
def envOpenLlmFail : OpenEnv := ⟨true, true, some openRowFull, none, true⟩

/-- A fresh analysis returned by OpenAI. -/
def newAnalysis : OpenAnalysis := ⟨"fresh summary", [49], none, "apparel", none⟩

/-- An open_run invocation on openRowFull whose OpenAI call succeeds. -/
def envOpenCached : OpenEnv := ⟨true, true, some openRowFull, some newAnalysis, true⟩

/-- A non-empty stored openai object. -/
def storedAnalysisSample : OaiStored :=
  ⟨some "stored summary", ["$9.99"], JsStrOrList.jlist [], some "decor", ""⟩

/-- An oai-variant lead row whose openai column is non-empty. -/
def oaiRowCached : OaiRow := ⟨true, some storedAnalysisSample⟩

/-- An oai-variant invocation on oaiRowCached. -/
def envOaiCached : OaiEnv := ⟨true, true, some oaiRowCached, none, true⟩

/-- A website invocation with benign collaborators. -/
def envWebsiteAny : WebsiteEnv :=
  ⟨true, true, SubmitOutcome.accepted, succeededOracle, some [], true⟩

/-! ### Shape of the reels handler results -/

/-- Every reels_run invocation that passes the token, body and validation
checks ends in one of three ways: the degraded 200 response with the
degraded write, the successful 200 response with the success write, or the
500 cache-failed response with the success write (exactly when the update
errored). -/
lemma reelsPOST_shape (env : ReelsEnv) (u l : JsVal)
    (ht : env.tokenOk = true) (hb : env.bodyOk = true)
    (hu : isValidStr u = true) (hl : isValidStr l = true) :
    reelsPOST env u l = ⟨200, some false, [LeadWrite.reelsDegraded]⟩ ∨
    ∃ rs er,
      (env.updateOk = true ∧
        reelsPOST env u l = ⟨200, some true, [LeadWrite.reelsOk rs er]⟩) ∨
      (env.updateOk = false ∧
        reelsPOST env u l = ⟨500, none, [LeadWrite.reelsOk rs er]⟩) := by
  cases hsub : env.submit with
  | netError => left; simp [reelsPOST, ht, hb, hu, hl, hsub]
  | rejected => left; simp [reelsPOST, ht, hb, hu, hl, hsub]
  | accepted =>
    by_cases hp : (pollLoopGraceful env.pollOracle 40 "RUNNING" 0 0).status = "SUCCEEDED"
    · cases hf : env.fetch with
      | none => left; simp [reelsPOST, ht, hb, hu, hl, hsub, hp, hf]
      | some results =>
        by_cases hres : results.length = 0
        · left; simp [reelsPOST, ht, hb, hu, hl, hsub, hp, hf, hres]
        · right
          refine ⟨(results.take 2).map extractReel,
            computeErAvg ((results.take 2).map extractReel), ?_⟩
          cases hup : env.updateOk with
          | true =>
            left
            exact ⟨rfl, by simp [reelsPOST, ht, hb, hu, hl, hsub, hp, hf, hres, hup]⟩
          | false =>
            right
            exact ⟨rfl, by simp [reelsPOST, ht, hb, hu, hl, hsub, hp, hf, hres, hup]⟩
    · left; simp [reelsPOST, ht, hb, hu, hl, hsub, hp]

/-! ### Claims C1 to C3 -/

/-- Claim C1, amended: in the reels stage handler every provider fault
(submission rejection, poll failure, fetch failure, empty or faulty
payload) is absorbed at the stage boundary — when the lead-store update
itself succeeds the handler always returns HTTP 200, and every non-success
response carries success false together with the degraded persisted write.
(The original claim fails on the profile handler, which returns 500 on
provider faults, and degraded responses report success false rather than
success true.) -/
theorem C1_reels_absorbs_faults : ∀ (env : ReelsEnv) (u l : JsVal),
    env.tokenOk = true → env.bodyOk = true →
    isValidStr u = true → isValidStr l = true →
    env.updateOk = true →
    (reelsPOST env u l).status = 200 ∧
    ((reelsPOST env u l).success = some true ∨
      ((reelsPOST env u l).success = some false ∧
        (reelsPOST env u l).writes = [LeadWrite.reelsDegraded])) := by
  intro env u l ht hb hu hl hup
  rcases reelsPOST_shape env u l ht hb hu hl with h | ⟨rs, er, ⟨_, h⟩ | ⟨hup2, h⟩⟩
  · rw [h]; exact ⟨rfl, Or.inr ⟨rfl, rfl⟩⟩
  · rw [h]; exact ⟨rfl, Or.inl rfl⟩
  · rw [hup] at hup2; cases hup2

/-- Claim C1 witness: the amended theorem applied to the concrete
rejected-submission invocation. -/
theorem C1_witness :
    isValidStr (JsVal.str "acme") = true ∧ envReelsRejected.updateOk = true ∧
    ((reelsPOST envReelsRejected (JsVal.str "acme") (JsVal.str "7")).status = 200 ∧
      ((reelsPOST envReelsRejected (JsVal.str "acme") (JsVal.str "7")).success = some true ∨
        ((reelsPOST envReelsRejected (JsVal.str "acme") (JsVal.str "7")).success = some false ∧
          (reelsPOST envReelsRejected (JsVal.str "acme") (JsVal.str "7")).writes =
            [LeadWrite.reelsDegraded]))) :=
  ⟨by decide, rfl,
    C1_reels_absorbs_faults envReelsRejected (JsVal.str "acme") (JsVal.str "7")
      rfl rfl (by decide) (by decide) rfl⟩

/-- Claim C1 counterexample: the profile handler apify_run answers a
provider fault (a rejected submission) with HTTP 500, refuting the stated
never-a-5xx property. -/
theorem C1_counterexample :
    isValidStr (JsVal.str "acme") = true ∧
    (apifyPOST envApifyRejected (JsVal.str "acme")).status = 500 := ⟨by decide, rfl⟩

/-- Claim C2, amended: in the reels stage handler the invariant holds —
after any write performed by a validated invocation, the completion flag
has_reels is true exactly when the write was the Ok write of a successful
extraction, and a degraded write resets the whole field group to its
neutral state (flag false, empty reels, null er_avg). (The original claim
fails on open_run, whose degraded paths lower ai_analysis_complete but
leave the analysis fields holding their prior data.) -/
theorem C2_reels_flag_iff_ok : ∀ (env : ReelsEnv) (u l : JsVal) (w : LeadWrite)
    (prior : ReelsFields),
    env.tokenOk = true → env.bodyOk = true →
    isValidStr u = true → isValidStr l = true →
    w ∈ (reelsPOST env u l).writes →
    ((applyReelsWrite w prior).has_reels = true ↔ ∃ rs er, w = LeadWrite.reelsOk rs er) ∧
    (w = LeadWrite.reelsDegraded → applyReelsWrite w prior = ⟨false, [], none⟩) := by
  intro env u l w prior ht hb hu hl hw
  rcases reelsPOST_shape env u l ht hb hu hl with h | ⟨rs, er, ⟨_, h⟩ | ⟨_, h⟩⟩ <;>
      rw [h] at hw <;> simp only [List.mem_singleton] at hw <;> subst hw
  · constructor
    · simp [applyReelsWrite]
    · intro _; rfl
  · constructor
    · simp [applyReelsWrite]
    · intro hcontra; exact absurd hcontra (by simp)
  · constructor
    · simp [applyReelsWrite]
    · intro hcontra; exact absurd hcontra (by simp)

/-- Claim C2 witness: the amended theorem applied to the degraded write of
the concrete rejected-submission invocation. -/
theorem C2_witness :
    LeadWrite.reelsDegraded ∈
      (reelsPOST envReelsRejected (JsVal.str "acme") (JsVal.str "7")).writes ∧
    (((applyReelsWrite LeadWrite.reelsDegraded priorReels).has_reels = true ↔
        ∃ rs er, LeadWrite.reelsDegraded = LeadWrite.reelsOk rs er) ∧
      (LeadWrite.reelsDegraded = LeadWrite.reelsDegraded →
        applyReelsWrite LeadWrite.reelsDegraded priorReels = ⟨false, [], none⟩)) :=
  ⟨by decide,
    C2_reels_flag_iff_ok envReelsRejected (JsVal.str "acme") (JsVal.str "7")
      LeadWrite.reelsDegraded priorReels rfl rfl (by decide) (by decide) (by decide)⟩

/-- Claim C2 counterexample: an open_run invocation degraded by an OpenAI
failure writes only the lowered flag; the previously stored summary
survives the write, so the owned fields are not cleared. -/
theorem C2_counterexample :
    (openPOST envOpenLlmFail (JsVal.num 5)).writes = [LeadWrite.aiFlagOnly] ∧
    (applyAiWrite LeadWrite.aiFlagOnly priorAnalyzed).ai_analysis_complete = false ∧
    (applyAiWrite LeadWrite.aiFlagOnly priorAnalyzed).summary = some "cached summary" :=
  ⟨rfl, rfl, rfl⟩

/-- Claim C3, amended: the reels stage handler performs exactly one
lead-store write on every invocation that passes input validation, but the
profile handler apify_run performs no lead-store write at all on any
invocation (its only storage side effect is the profile-picture upload). -/
theorem C3_exactly_one_write :
    (∀ (env : ReelsEnv) (u l : JsVal),
      env.tokenOk = true → env.bodyOk = true →
      isValidStr u = true → isValidStr l = true →
      (reelsPOST env u l).writes.length = 1) ∧
    ∀ (env2 : ApifyEnv) (u2 : JsVal), (apifyPOST env2 u2).writes = [] := by
  constructor
  · intro env u l ht hb hu hl
    rcases reelsPOST_shape env u l ht hb hu hl with h | ⟨rs, er, ⟨_, h⟩ | ⟨_, h⟩⟩ <;>
      simp [h]
  · intro env2 u2
    unfold apifyPOST
    repeat' split
    all_goals rfl

/-- Claim C3 witness: the amended theorem applied to the concrete
successful reels invocation and the concrete successful apify
invocation. -/
theorem C3_witness :
    isValidStr (JsVal.str "acme") = true ∧
    (reelsPOST envReelsHappy (JsVal.str "acme") (JsVal.str "7")).writes.length = 1 ∧
    (apifyPOST envApifyOk (JsVal.str "acme")).writes = [] :=
  ⟨by decide,
    C3_exactly_one_write.1 envReelsHappy (JsVal.str "acme") (JsVal.str "7")
      rfl rfl (by decide) (by decide),
    C3_exactly_one_write.2 envApifyOk (JsVal.str "acme")⟩

/-- Claim C3 counterexample: a fully successful, validated apify_run
invocation returns having performed zero lead-store writes, refuting the
exactly-one-write property. -/
theorem C3_counterexample :
    isValidStr (JsVal.str "acme") = true ∧
    (apifyPOST envApifyOk (JsVal.str "acme")).status = 200 ∧
    (apifyPOST envApifyOk (JsVal.str "acme")).writes = [] :=
  ⟨by decide, rfl, rfl⟩

/-! ### Claims C4 to C7 -/

/-- Claim C4, amended: for every maxAttempts budget N and a status oracle
that answers RUNNING to every query without error, both polling loops
perform exactly N status queries, each preceded by one sleep, and then exit
with the status variable still RUNNING — the handlers treat that
non-SUCCEEDED status as a failed run; no distinct TIMED_OUT verdict is ever
produced locally. -/
theorem C4_poll_budget_expiry : ∀ n : Nat,
    pollLoopGraceful runningOracle n "RUNNING" 0 0 = ⟨"RUNNING", n, n⟩ ∧
    pollLoopStrict runningOracle n "RUNNING" 0 0 = Except.ok ⟨"RUNNING", n, n⟩ := by
  intro n
  constructor
  · simpa using pollLoopGraceful_running n 0 0
  · simpa using pollLoopStrict_running n 0 0

/-- Claim C4 counterexample: with the source budget of 40 attempts and an
always-RUNNING oracle, the loop makes 40 queries and exits with status
RUNNING rather than the TIMED_OUT verdict of the claim. -/
theorem C4_counterexample :
    pollLoopGraceful runningOracle 40 "RUNNING" 0 0 = ⟨"RUNNING", 40, 40⟩ ∧
    (pollLoopGraceful runningOracle 40 "RUNNING" 0 0).status ≠ "TIMED_OUT" := by
  constructor
  · decide
  · decide

/-- Claim C5, amended: a single transient error on the first status query
immediately terminates polling after that one query — the graceful loop of
reels_run and website_run exits with status FAILED (the handler then
persists the degraded state), and the strict loop of apify_run throws —
with no continuation of polling, no three-error tolerance and no ABORTED
verdict. -/
theorem C5_single_error_aborts : ∀ (oracle : Nat → QueryResult) (n : Nat),
    oracle 0 = QueryResult.transientError →
    pollLoopGraceful oracle (n + 1) "RUNNING" 0 0 = ⟨"FAILED", 1, 1⟩ ∧
    pollLoopStrict oracle (n + 1) "RUNNING" 0 0 = Except.error "Polling error" := by
  intro oracle n h
  constructor
  · show pollLoopGraceful oracle (Nat.succ n) "RUNNING" 0 0 = ⟨"FAILED", 1, 1⟩
    rw [pollLoopGraceful]
    simp only [if_pos rfl, h]
    exact pollLoopGraceful_exit oracle n "FAILED" 1 1 (by decide)
  · show pollLoopStrict oracle (Nat.succ n) "RUNNING" 0 0 = Except.error "Polling error"
    rw [pollLoopStrict]
    simp only [if_pos rfl, h, if_true]

/-- Claim C5 witness: the amended theorem applied to the oracle that fails
its first query, with the source budget of 40 attempts. -/
theorem C5_witness :
    errFirstOracle 0 = QueryResult.transientError ∧
    pollLoopGraceful errFirstOracle 40 "RUNNING" 0 0 = ⟨"FAILED", 1, 1⟩ ∧
    pollLoopStrict errFirstOracle 40 "RUNNING" 0 0 = Except.error "Polling error" :=
  ⟨rfl, (C5_single_error_aborts errFirstOracle 39 rfl).1,
    (C5_single_error_aborts errFirstOracle 39 rfl).2⟩

/-- Claim C5 counterexample: after one transient error with every later
query answering RUNNING, the loop has already stopped having performed only
one query, with verdict FAILED and never ABORTED — refuting the
decrement-and-continue and three-consecutive-errors behaviour. -/
theorem C5_counterexample :
    errFirstOracle 1 = QueryResult.ok "RUNNING" ∧
    (pollLoopGraceful errFirstOracle 40 "RUNNING" 0 0).queries = 1 ∧
    (pollLoopGraceful errFirstOracle 40 "RUNNING" 0 0).status = "FAILED" ∧
    (pollLoopGraceful errFirstOracle 40 "RUNNING" 0 0).status ≠ "ABORTED" := by
  refine ⟨by decide, by decide, by decide, by decide⟩

/-- Claim C6, amended: each item engagement proxy is
(likes + comments) / views * 100 when views > 0 and 0 otherwise, and
er_avg is null exactly when the summed views are 0; but the aggregate
numerator sums likes + comments over ALL capped items, including zero-view
items, so the example pair (10, 5, 100) and (20, 0, 0) yields
35 / 100 * 100 = 35.00 — the second item contributes 0 views and a 0
per-item rate, yet its 20 likes do enter the numerator. -/
theorem C6_engagement_aggregate : ∀ rs : List Reel,
    (computeErAvg rs = none ↔ totalViews rs = 0) ∧
    computeErAvg [extractReel rawReelA, extractReel rawReelB] = some 35 ∧
    (extractReel rawReelB).ctr = 0 ∧
    (extractReel rawReelB).videoPlayCount = 0 ∧
    (extractReel rawReelA).ctr = 15 := by
  intro rs
  refine ⟨?_, ?_, ?_, rfl, ?_⟩
  · unfold computeErAvg
    split
    all_goals simp_all
    all_goals omega
  · norm_num [computeErAvg, extractReel, rawReelA, rawReelB, totalEngagement, totalViews,
      round2]
  · norm_num [extractReel, rawReelB, round2]
  · norm_num [extractReel, rawReelA, round2]

/-- Claim C6 counterexample: on the capped item set of the claim, the
aggregate is 35.00, not the claimed 15.00. -/
theorem C6_counterexample :
    computeErAvg (([rawReelA, rawReelB].take 2).map extractReel) = some 35 ∧
    (35 : ℚ) ≠ 15 := by
  constructor
  · norm_num [computeErAvg, extractReel, rawReelA, rawReelB, totalEngagement, totalViews,
      round2]
  · norm_num

/-- Claim C7, amended: in the reels stage handler a job that reaches
SUCCEEDED but fetches an empty record sequence ends as Degraded — the
neutral fields are persisted with the flag false and the response is 200
with success false, never a thrown fault. (The original claim fails on
the profile handler, which throws internally on an empty sequence and
answers 500, persisting nothing.) -/
theorem C7_empty_is_degraded : ∀ (env : ReelsEnv) (u l : JsVal),
    env.tokenOk = true → env.bodyOk = true →
    isValidStr u = true → isValidStr l = true →
    env.submit = SubmitOutcome.accepted →
    (pollLoopGraceful env.pollOracle 40 "RUNNING" 0 0).status = "SUCCEEDED" →
    env.fetch = some [] →
    reelsPOST env u l = ⟨200, some false, [LeadWrite.reelsDegraded]⟩ := by
  intro env u l ht hb hu hl hs hp hf
  simp [reelsPOST, ht, hb, hu, hl, hs, hp, hf]

/-- Claim C7 witness: the amended theorem applied to the concrete
empty-dataset reels invocation. -/
theorem C7_witness :
    envReelsEmpty.fetch = some [] ∧
    (pollLoopGraceful envReelsEmpty.pollOracle 40 "RUNNING" 0 0).status = "SUCCEEDED" ∧
    reelsPOST envReelsEmpty (JsVal.str "acme") (JsVal.str "7") =
      ⟨200, some false, [LeadWrite.reelsDegraded]⟩ :=
  ⟨rfl, by decide,
    C7_empty_is_degraded envReelsEmpty (JsVal.str "acme") (JsVal.str "7")
      rfl rfl (by decide) (by decide) rfl (by decide) rfl⟩

/-- Claim C7 counterexample: the profile handler apify_run answers an
empty record sequence of a SUCCEEDED job with HTTP 500 and no persisted
write, refuting the degraded-200 property. -/
theorem C7_counterexample :
    actorEmptyProfile.items = ([] : List RawProfile) ∧
    (apifyPOST envApifyEmpty (JsVal.str "acme")).status = 500 ∧
    (apifyPOST envApifyEmpty (JsVal.str "acme")).writes = [] :=
  ⟨rfl, rfl, rfl⟩

/-! ### Claims C8 to C10 -/

/-- Claim C8, amended: the idempotency check exists only in the oai variant
of the summarization stage (concise_run.ts lines 222-225): there, a lead
whose stored openai object is non-empty gets the cached object back as-is,
with zero OpenAI calls and zero lead-store writes. (The original claim
fails on open_run, which never reads the stored analysis and re-runs the
OpenAI call and overwrite unconditionally.) -/
theorem C8_oai_idempotent : ∀ (env : OaiEnv) (lid : JsVal) (row : OaiRow) (a : OaiStored),
    env.tokenOk = true → env.bodyOk = true → isValidStr lid = true →
    env.leadRow = some row → row.openaiStored = some a →
    oaiPOST env lid = ⟨200, some true, 0, [], some a⟩ := by
  intro env lid row a ht hb hv hr ho
  simp [oaiPOST, ht, hb, hv, hr, ho]

/-- Claim C8 witness: the amended theorem applied to the concrete cached
lead row. -/
theorem C8_witness :
    oaiRowCached.openaiStored = some storedAnalysisSample ∧
    oaiPOST envOaiCached (JsVal.str "7") =
      ⟨200, some true, 0, [], some storedAnalysisSample⟩ :=
  ⟨rfl,
    C8_oai_idempotent envOaiCached (JsVal.str "7") oaiRowCached storedAnalysisSample
      rfl rfl (by decide) rfl rfl⟩

/-- Claim C8 counterexample: an open_run invocation on a lead whose
analysis field group is already non-empty still performs one OpenAI call
and overwrites the group, changing the stored record — refuting the
zero-calls-and-unchanged property. -/
theorem C8_counterexample :
    openRowFull.stored.summary = some "cached summary" ∧
    (openPOST envOpenCached (JsVal.num 5)).llmCalls = 1 ∧
    (openPOST envOpenCached (JsVal.num 5)).writes = [LeadWrite.aiFieldsOk newAnalysis] ∧
    (applyAiWrite (LeadWrite.aiFieldsOk newAnalysis) priorAnalyzed).summary =
      some "fresh summary" ∧
    some ("fresh summary" : String) ≠ some "cached summary" := by
  refine ⟨rfl, rfl, rfl, rfl, by decide⟩

/-- Claim C9, amended: the extraction mappings default many fields — in
particular a profile record missing biography yields the empty string —
but they are not total on every field: username, followersCount,
profilePicUrl and profilePicUrlHD are copied without fallback and an
absent value propagates into the normalized profile, as does loadedUrl in
the website mapping when both crawl.loadedUrl and url are absent. -/
theorem C9_extraction_defaults : ∀ (r : RawProfile) (p : RawPage),
    (extractProfile r).biography = r.biography.getD "" ∧
    (r.biography = none → (extractProfile r).biography = "") ∧
    (extractProfile r).username = r.username ∧
    (extractProfile r).followersCount = r.followersCount ∧
    (extractProfile r).profilePicUrl = r.profilePicUrl ∧
    (extractProfile r).profilePicUrlHD = r.profilePicUrlHD ∧
    (p.crawlLoadedUrl = none → p.url = none → (extractPage p).loadedUrl = none) := by
  intro r p
  refine ⟨rfl, ?_, rfl, rfl, rfl, rfl, ?_⟩
  · intro h; simp [extractProfile, h]
  · intro h1 h2; simp [extractPage, jsOrStr, h1, h2]

/-- Claim C9 witness: the amended theorem applied to the all-absent raw
profile and raw page. -/
theorem C9_witness :
    rawProfileBare.biography = none ∧
    (extractProfile rawProfileBare).biography = "" ∧
    rawPageBare.crawlLoadedUrl = none ∧ rawPageBare.url = none ∧
    (extractPage rawPageBare).loadedUrl = none :=
  ⟨rfl, (C9_extraction_defaults rawProfileBare rawPageBare).2.1 rfl, rfl, rfl,
    (C9_extraction_defaults rawProfileBare rawPageBare).2.2.2.2.2.2 rfl rfl⟩

/-- Claim C9 counterexample: a raw profile with username and
followersCount absent maps to a normalized profile whose username and
followersCount are still absent — an absent value propagates, refuting the
every-field-has-a-fallback property (while biography does default to the
empty string). -/
theorem C9_counterexample :
    rawProfileBare.username = none ∧
    (extractProfile rawProfileBare).username = none ∧
    (extractProfile rawProfileBare).followersCount = none ∧
    (extractProfile rawProfileBare).biography = "" :=
  ⟨rfl, rfl, rfl, rfl⟩

/-- Claim C10, amended: for every request to the website stage handler
with a valid externalUrl and leadId, the start-URL normalization calls the
non-existent string method endswith, so the handler throws a TypeError
before any crawl job is submitted, performing no lead-store write and
returning no response; and had the normalization used the standard
endsWith, the submitted entry point would be the slash-terminated
externalUrl with collections/ appended whenever externalUrl does not
already contain collections — an externalUrl already containing
collections would be submitted unchanged. -/
theorem C10_endswith_typeerror : ∀ (env : WebsiteEnv) (u l : String),
    u ≠ "" → l ≠ "" → env.tokenOk = true → env.bodyOk = true →
    websitePOST env (JsVal.str u) (JsVal.str l) = ⟨HandlerOutcome.thrown, [], false⟩ ∧
    computeStartUrl u = none ∧
    computeStartUrlFixed "https://a.com" = "https://a.com/collections/" := by
  intro env u l hu hl ht hb
  have hcs : computeStartUrl u = none := rfl
  refine ⟨?_, hcs, by decide⟩
  simp [websitePOST, ht, hb, isValidStr, bne_iff_ne, hu, hl, hcs]

/-- Claim C10 witness: the amended theorem applied to a concrete valid
request. -/
theorem C10_witness :
    ("https://shop.example" : String) ≠ "" ∧
    websitePOST envWebsiteAny (JsVal.str "https://shop.example") (JsVal.str "7") =
      ⟨HandlerOutcome.thrown, [], false⟩ ∧
    computeStartUrl "https://shop.example" = none :=
  ⟨by decide,
    (C10_endswith_typeerror envWebsiteAny "https://shop.example" "7"
      (by decide) (by decide) rfl rfl).1,
    (C10_endswith_typeerror envWebsiteAny "https://shop.example" "7"
      (by decide) (by decide) rfl rfl).2.1⟩

/-- Claim C10 counterexample: under the corrected endsWith normalization,
an externalUrl that already contains collections is submitted as-is — the
entry point IS the given externalUrl — refuting the unconditional
collections-appended clause of the claim. -/
theorem C10_counterexample :
    computeStartUrlFixed "https://a.com/collections/" = "https://a.com/collections/" := by
  decide

end SaasAdmin
